import Mathlib

/-!
Verification development for the embot_vite application.

The repository is a React application with two components whose decision
logic is verified here:

* `FaceDetection.tsx` — a per-frame emotion aggregator: the face-api
  expression scores of the first detected face are reduced to a dominant
  (label, score) pair, and the detected-emotion state is updated only when
  the dominant score exceeds 0.5.
* `ChatInterface.tsx` — the chat dispatcher (`sendMessage`), the clear-chat
  operation, and the speech-dictation error/retry handlers.

Confidence scores are modelled as rationals (the JS numbers never matter
beyond order comparisons against 0.5 in the verified claims).
-/

/-- Embedding of the reduce callback at FaceDetection.tsx lines 227-229:
`(prev, current) => prev[1] > current[1] ? prev : current`. -/
def exprReducer (prev current : String × ℚ) : String × ℚ :=
  if prev.2 > current.2 then prev else current

/-- Embedding of FaceDetection.tsx lines 226-229:
`Object.entries(expressions).reduce(exprReducer)`.  A JS `reduce` without an
initial value seeds with the first element; the per-frame score set is the
nonempty list `x :: xs` of (label, score) entries in iteration order (the
expression object's own-property insertion order). -/
def dominantExpression (x : String × ℚ) (xs : List (String × ℚ)) : String × ℚ :=
  xs.foldl exprReducer x

/-- The fixed confidence threshold 0.5 of FaceDetection.tsx line 245,
written with `mkRat` so that concrete comparisons evaluate. -/
def confidenceThreshold : ℚ := mkRat 1 2

/-- Embedding of FaceDetection.tsx lines 244-247: the detected-emotion state
is replaced by the dominant label only when its confidence exceeds 0.5
(`if (dominantExpression[1] > 0.5) setDetectedEmotion(...)`); otherwise the
previous value is kept. -/
def updateDetectedEmotion (cur : Option String) (x : String × ℚ)
    (xs : List (String × ℚ)) : Option String :=
  let d := dominantExpression x xs
  if d.2 > confidenceThreshold then some d.1 else cur

/-- The emotion state visible to the application: `detectedEmotion` inside
`FaceDetection` and the shared `currentEmotion` held by `App` (propagated by
the effect at FaceDetection.tsx lines 57-61 through `onEmotionDetected`,
which `App.tsx` lines 12-14 stores with `setCurrentEmotion`). -/
structure EmotionPipeline where
  detectedEmotion : Option String
  currentEmotion : Option String
deriving DecidableEq

/-- One frame of the detection loop acting on the emotion state: the
aggregator updates `detectedEmotion` (FaceDetection.tsx lines 223-248), and
the propagation effect (lines 57-61, dependency `[detectedEmotion]`) runs
only when `detectedEmotion` changed, forwarding it to `App`'s
`currentEmotion` when truthy (`if (detectedEmotion)`). -/
def framePipeline (st : EmotionPipeline) (x : String × ℚ)
    (xs : List (String × ℚ)) : EmotionPipeline :=
  let d := updateDetectedEmotion st.detectedEmotion x xs
  { detectedEmotion := d
    currentEmotion :=
      if d = st.detectedEmotion then st.currentEmotion
      else
        match d with
        | none => st.currentEmotion
        | some e => if e = "" then st.currentEmotion else some e }

/-- Message roles, ChatInterface.tsx line 112. -/
inductive Role where
  | system
  | user
  | assistant
deriving DecidableEq

/-- A stored chat message, ChatInterface.tsx lines 111-115: role, content and
a locally generated id used only for animations. -/
structure Message where
  role : Role
  content : String
  id : String
deriving DecidableEq

/-- A wire-format payload entry `{ role, content }` as built at
ChatInterface.tsx lines 369-373 (the stored `id` is dropped). -/
structure Entry where
  role : Role
  content : String
deriving DecidableEq

/-- The `result` object of a parsed response body: its `response` field, or
`none` when the field is absent (or `null`). -/
structure ApiResult where
  response : Option String
deriving DecidableEq

/-- A parsed 2xx response body: its `result` object, or `none` when absent
(or `null`). -/
structure ApiBody where
  result : Option ApiResult
deriving DecidableEq

/-- The possible outcomes of the `fetch` at ChatInterface.tsx lines 360-382:
a 2xx response with a parsed JSON body, a non-2xx response (line 378 throws
on `!response.ok`), or a thrown network/parse error. -/
inductive FetchOutcome where
  | ok (body : ApiBody)
  | httpError (status : Nat)
  | netFail
deriving DecidableEq

/-- The chat component state relevant to the verified claims,
ChatInterface.tsx lines 122-125. -/
structure ChatState where
  messages : List Message
  input : String
  isLoading : Bool
  isListening : Bool
deriving DecidableEq

/-- The initial chat component state (useState initializers,
ChatInterface.tsx lines 122-125). -/
def initialChatState : ChatState :=
  { messages := [], input := "", isLoading := false, isListening := false }

/-- JavaScript `String.prototype.trim`, written with structural list
recursion so that concrete inputs evaluate: whitespace is stripped from both
ends.  Used by the guard `if (!input.trim()) return` at line 325 (a string
is falsy exactly when it is empty). -/
def jsTrim (s : String) : String :=
  ⟨((s.data.dropWhile Char.isWhitespace).reverse.dropWhile
      Char.isWhitespace).reverse⟩

/-- JavaScript `currentEmotion || 'neutral'` at ChatInterface.tsx line 352:
`null` and the empty string are falsy. -/
def emotionOrNeutral : Option String → String
  | none => "neutral"
  | some e => if e = "" then "neutral" else e

/-- The system-message content template of ChatInterface.tsx line 352. -/
def systemContent (currentEmotion : Option String) : String :=
  "You are an emotion powered chatbot. Your responses are influenced by the user emotions. Currently the user is "
    ++ emotionOrNeutral currentEmotion ++ "!"

/-- The fixed fallback text appended on any failure,
ChatInterface.tsx line 403. -/
def fallbackContent : String :=
  "Sorry, I had trouble processing your request. Please try again."

/-- The fallback assistant message appended in the catch block,
ChatInterface.tsx lines 399-406.  All `Date.now()` timestamps of one
dispatcher invocation are modelled by the single parameter `ts` (ids are
used only as animation keys). -/
def fallbackMessage (ts : Nat) : Message :=
  { role := Role.assistant, content := fallbackContent
    id := "error-" ++ toString ts }

/-- The first half of `sendMessage` (ChatInterface.tsx lines 326-346), up to
the point where the request is issued: stop listening if active, build the
user message from the raw (untrimmed) input, append it optimistically, clear
the input, and raise the busy flag.  Returns the new state together with the
user message (needed later for the payload). -/
def sendMessagePre (st : ChatState) (ts : Nat) : ChatState × Message :=
  let st1 := if st.isListening then { st with isListening := false } else st
  let userMessage : Message :=
    { role := Role.user, content := st.input, id := "user-" ++ toString ts }
  ({ st1 with
      messages := st1.messages ++ [userMessage]
      input := ""
      isLoading := true },
    userMessage)

/-- The request payload built at ChatInterface.tsx lines 349-374: the fresh
system message, then the conversation history — the `messages` value
captured before the optimistic append, with system-role entries filtered
out — then the new user message.  Ids are dropped (lines 370-372). -/
def requestPayload (currentEmotion : Option String)
    (priorMessages : List Message) (userMessage : Message) : List Entry :=
  { role := Role.system, content := systemContent currentEmotion } ::
    ((priorMessages.filter fun m => m.role ≠ Role.system).map
        fun m => ({ role := m.role, content := m.content } : Entry))
    ++ [({ role := userMessage.role, content := userMessage.content } : Entry)]

/-- JavaScript truthiness of `data.result && data.result.response`
(ChatInterface.tsx line 385): the `result` object must be present and the
`response` field must be a non-empty string; returns the response text when
the check passes. -/
def jsTruthyResponse (body : ApiBody) : Option String :=
  match body.result with
  | none => none
  | some r =>
    match r.response with
    | none => none
    | some s => if s = "" then none else some s

/-- The second half of `sendMessage` (ChatInterface.tsx lines 378-409),
given the state after `sendMessagePre` and the outcome of the `fetch`: on a
2xx body passing the truthiness check, append the response text as an
assistant message; on every other outcome the thrown error is caught and the
fixed fallback assistant message is appended; the `finally` block always
clears the busy flag. -/
def sendMessageFinish (st2 : ChatState) (ts : Nat)
    (outcome : FetchOutcome) : ChatState :=
  let st3 :=
    match outcome with
    | FetchOutcome.ok body =>
      match jsTruthyResponse body with
      | some s =>
        { st2 with
            messages := st2.messages ++
              [({ role := Role.assistant, content := s
                  id := "assistant-" ++ toString ts } : Message)] }
      | none => { st2 with messages := st2.messages ++ [fallbackMessage ts] }
    | FetchOutcome.httpError _ =>
      { st2 with messages := st2.messages ++ [fallbackMessage ts] }
    | FetchOutcome.netFail =>
      { st2 with messages := st2.messages ++ [fallbackMessage ts] }
  { st3 with isLoading := false }

/-- The full chat dispatcher `sendMessage` (ChatInterface.tsx lines
323-410): the guard `if (!input.trim()) return` makes empty or
whitespace-only submissions a no-op (no payload, state untouched);
otherwise the two halves run around the request.  Returns the final state
and the payload that was sent (`none` when no request was issued). -/
def sendMessage (currentEmotion : Option String) (st : ChatState) (ts : Nat)
    (outcome : FetchOutcome) : ChatState × Option (List Entry) :=
  if jsTrim st.input = "" then (st, none)
  else
    let pre := sendMessagePre st ts
    let payload := requestPayload currentEmotion st.messages pre.2
    (sendMessageFinish pre.1 ts outcome, some payload)

/-- The clear-chat operation, ChatInterface.tsx lines 319-321: the only
state it touches is `messages`. -/
def clearChat (st : ChatState) : ChatState :=
  { st with messages := [] }

/-- The application-level state, App.tsx lines 8-14: the shared current
emotion and the chat component state. -/
structure AppState where
  currentEmotion : Option String
  chat : ChatState
deriving DecidableEq

/-- App.tsx lines 12-14: the emotion callback stores the label. -/
def handleEmotionDetected (st : AppState) (emotion : String) : AppState :=
  { st with currentEmotion := some emotion }

/-- Clearing the chat at the application level: the clear button
(ChatInterface.tsx line 420) invokes `clearChat` and nothing else. -/
def appClearChat (st : AppState) : AppState :=
  { st with chat := clearChat st.chat }

/-- The operations that can touch the chat component state: a full
dispatcher invocation (with the fetch outcome it observed), the clear-chat
button, typing in the input box (line 527), and a recognized dictation
utterance (lines 162-169, which space-joins the trimmed transcript onto a
non-empty input). -/
inductive ChatOp where
  | send (currentEmotion : Option String) (ts : Nat) (outcome : FetchOutcome)
  | clear
  | typeInput (s : String)
  | speechResult (transcript : String)
deriving DecidableEq

/-- One chat-component operation acting on the state. -/
def chatStep (st : ChatState) : ChatOp → ChatState
  | ChatOp.send currentEmotion ts outcome =>
    (sendMessage currentEmotion st ts outcome).1
  | ChatOp.clear => clearChat st
  | ChatOp.typeInput s => { st with input := s }
  | ChatOp.speechResult transcript =>
    { st with
        input :=
          if st.input = "" then jsTrim transcript
          else st.input ++ " " ++ jsTrim transcript }

/-- The dictation-relevant fields of the chat component state,
ChatInterface.tsx lines 125-131: the listening flag, the network-error
("reconnecting") sub-state flag, the permission-error banner text, and
whether a retry timer is pending (`retryTimeoutRef`). -/
structure DictState where
  isListening : Bool
  networkError : Bool
  permissionError : Option String
  retryScheduled : Bool
deriving DecidableEq

/-- Commands issued to the underlying browser speech recognizer. -/
inductive RecCmd where
  | stop
  | start
deriving DecidableEq

/-- Embedding of the `recognition.onerror` handler, ChatInterface.tsx lines
172-209: `not-allowed` sets the permission banner; `no-speech` only logs;
`network` raises the network-error sub-state, sets a banner, and schedules
the retry timer (clearing any previous one, so at most one is ever
pending); finally, every error except `network` forces the listening flag
off (lines 206-208). -/
def recognitionOnError (err : String) (st : DictState) : DictState :=
  let st1 :=
    if err = "not-allowed" then
      { st with
          permissionError :=
            some "Microphone access was denied. Please check your browser permissions." }
    else if err = "no-speech" then st
    else if err = "network" then
      { st with
          networkError := true
          permissionError :=
            some "Network error occurred. Please check your internet connection."
          retryScheduled := true }
    else st
  if err ≠ "network" then { st1 with isListening := false } else st1

/-- The value of `isListening` read by the retry callback.  The recognition
instance and all its handlers, `onerror` included, are created inside the
mount effect `useEffect(..., [])` (ChatInterface.tsx lines 139-255) and —
unlike `onend`, which a second effect re-assigns on every `isListening`
change (lines 258-281) — `onerror` is never re-installed.  Its closure
therefore reads the first-render value of `isListening`, which is the
`useState(false)` initializer. -/
def onErrorCapturedIsListening : Bool := false

/-- The retry scheduled at ChatInterface.tsx lines 189-203, taken to
completion (the outer 2000 ms timeout followed by the inner 300 ms one, with
the recognizer not throwing): if the `isListening` value seen by the closure
is true, stop then start the recognizer and clear the network-error and
permission-error flags; otherwise do nothing.  Returns the new state and
the commands issued to the recognizer. -/
def retryCallback (capturedIsListening : Bool) (st : DictState) :
    DictState × List RecCmd :=
  if capturedIsListening then
    ({ st with
        networkError := false
        permissionError := none
        retryScheduled := false },
      [RecCmd.stop, RecCmd.start])
  else ({ st with retryScheduled := false }, [])

/-! ## Helper lemmas about the expression reduce -/

theorem exprReducer_eq_or (p c : String × ℚ) :
    exprReducer p c = p ∨ exprReducer p c = c := by
  unfold exprReducer
  split
  · exact Or.inl rfl
  · exact Or.inr rfl

theorem le_exprReducer_left (p c : String × ℚ) :
    p.2 ≤ (exprReducer p c).2 := by
  unfold exprReducer
  split
  · exact le_refl _
  · next h => exact not_lt.mp h

theorem le_exprReducer_right (p c : String × ℚ) :
    c.2 ≤ (exprReducer p c).2 := by
  unfold exprReducer
  split
  · next h => exact le_of_lt h
  · exact le_refl _

theorem foldl_exprReducer_mem (xs : List (String × ℚ)) (x : String × ℚ) :
    xs.foldl exprReducer x = x ∨ xs.foldl exprReducer x ∈ xs := by
  induction xs generalizing x with
  | nil => exact Or.inl rfl
  | cons c cs ih =>
    rw [List.foldl_cons]
    rcases ih (exprReducer x c) with h | h
    · rw [h]
      rcases exprReducer_eq_or x c with he | he
      · exact Or.inl he
      · refine Or.inr ?_
        rw [he]
        exact List.mem_cons_self _ _
    · exact Or.inr (List.mem_cons_of_mem _ h)

theorem foldl_exprReducer_seed_le (xs : List (String × ℚ)) (x : String × ℚ) :
    x.2 ≤ (xs.foldl exprReducer x).2 := by
  induction xs generalizing x with
  | nil => exact le_refl _
  | cons c cs ih =>
    rw [List.foldl_cons]
    exact le_trans (le_exprReducer_left x c) (ih (exprReducer x c))

theorem foldl_exprReducer_mem_le (xs : List (String × ℚ)) (x : String × ℚ) :
    ∀ p ∈ xs, p.2 ≤ (xs.foldl exprReducer x).2 := by
  induction xs generalizing x with
  | nil => intro p hp; cases hp
  | cons c cs ih =>
    intro p hp
    rw [List.foldl_cons]
    rcases List.mem_cons.mp hp with rfl | hp
    · exact le_trans (le_exprReducer_right x p) (foldl_exprReducer_seed_le cs _)
    · exact ih (exprReducer x c) p hp

theorem exprReducer_of_le (p c : String × ℚ) (h : p.2 ≤ c.2) :
    exprReducer p c = c := by
  unfold exprReducer
  rw [if_neg (not_lt.mpr h)]

theorem foldl_exprReducer_of_lt (xs : List (String × ℚ)) (x : String × ℚ)
    (h : ∀ p ∈ xs, p.2 < x.2) : xs.foldl exprReducer x = x := by
  induction xs with
  | nil => rfl
  | cons c cs ih =>
    have hc : exprReducer x c = x := by
      unfold exprReducer
      rw [if_pos (h c (List.mem_cons_self _ _))]
    rw [List.foldl_cons, hc]
    exact ih fun p hp => h p (List.mem_cons_of_mem _ hp)

/-! ## Claims about the emotion aggregator -/

/-- Claim C1: the aggregator selects a label of the frame's score set whose
score is the maximum over all labels, and whenever that maximum is at most
0.5 the whole emotion state — the component's detected emotion and the
shared current emotion — is left exactly as it was. -/
theorem claim_C1 (st : EmotionPipeline) (x : String × ℚ)
    (xs : List (String × ℚ)) :
    dominantExpression x xs ∈ x :: xs ∧
    (∀ p ∈ x :: xs, p.2 ≤ (dominantExpression x xs).2) ∧
    ((dominantExpression x xs).2 ≤ confidenceThreshold →
      framePipeline st x xs = st) := by
  refine ⟨?_, ?_, ?_⟩
  · rcases foldl_exprReducer_mem xs x with h | h
    · rw [dominantExpression, h]
      exact List.mem_cons_self _ _
    · exact List.mem_cons_of_mem _ h
  · intro p hp
    rcases List.mem_cons.mp hp with rfl | hp
    · exact foldl_exprReducer_seed_le xs p
    · exact foldl_exprReducer_mem_le xs x p hp
  · intro hle
    have hng : ¬ (dominantExpression x xs).2 > confidenceThreshold :=
      not_lt.mpr hle
    simp [framePipeline, updateDetectedEmotion, hng]

/-- Witness for C1 at a concrete frame: both scores are below the
threshold, so the maximum bound holds and the state is untouched. -/
theorem claim_C1_witness :
    (mkRat 1 5 ≤ (dominantExpression ("sad", mkRat 2 5) [("angry", mkRat 1 5)]).2) ∧
    framePipeline
        { detectedEmotion := some "happy", currentEmotion := some "happy" }
        ("sad", mkRat 2 5) [("angry", mkRat 1 5)]
      = { detectedEmotion := some "happy", currentEmotion := some "happy" } :=
  ⟨(claim_C1 { detectedEmotion := some "happy", currentEmotion := some "happy" }
        ("sad", mkRat 2 5) [("angry", mkRat 1 5)]).2.1
      ("angry", mkRat 1 5) (by decide),
    (claim_C1 { detectedEmotion := some "happy", currentEmotion := some "happy" }
        ("sad", mkRat 2 5) [("angry", mkRat 1 5)]).2.2 (by decide)⟩

/-- Counterexample to C9 as stated: with "happy" and "sad" tied at 3/5, the
reduce selects "sad", the last-encountered of the tied labels, not the
first-encountered "happy". -/
theorem claim_C9_counterexample :
    dominantExpression ("happy", mkRat 3 5) [("sad", mkRat 3 5)]
        = ("sad", mkRat 3 5) ∧
    dominantExpression ("happy", mkRat 3 5) [("sad", mkRat 3 5)]
        ≠ ("happy", mkRat 3 5) := by
  decide

/-- Claim C9 (amended): when labels are tied at the maximum confidence, the
aggregator selects the LAST-encountered label in iteration order — the
reduce keeps the accumulator only on a strict win, so any entry that is at
least as large as everything before it and strictly larger than everything
after it is the result. -/
theorem claim_C9 (l1 : List (String × ℚ)) (b : String × ℚ)
    (l2 : List (String × ℚ)) (x : String × ℚ) (xs : List (String × ℚ))
    (hshape : x :: xs = l1 ++ b :: l2)
    (h1 : ∀ p ∈ l1, p.2 ≤ b.2) (h2 : ∀ p ∈ l2, p.2 < b.2) :
    dominantExpression x xs = b := by
  cases l1 with
  | nil =>
    rw [List.nil_append] at hshape
    injection hshape with hx hxs
    unfold dominantExpression
    rw [hxs, hx]
    exact foldl_exprReducer_of_lt l2 b h2
  | cons y ys =>
    rw [List.cons_append] at hshape
    injection hshape with hx hxs
    unfold dominantExpression
    rw [hxs, List.foldl_append]
    have hM : (ys.foldl exprReducer x).2 ≤ b.2 := by
      rcases foldl_exprReducer_mem ys x with h | h
      · rw [h, hx]
        exact h1 y (List.mem_cons_self _ _)
      · exact h1 _ (List.mem_cons_of_mem _ h)
    rw [List.foldl_cons, exprReducer_of_le _ _ hM]
    exact foldl_exprReducer_of_lt l2 b h2

/-- Witness for the amended C9: the middle entry is at least as large as
its predecessor and strictly larger than its successor, so it wins. -/
theorem claim_C9_witness :
    dominantExpression ("a", mkRat 1 4) [("b", mkRat 1 2), ("c", mkRat 1 4)]
      = ("b", mkRat 1 2) :=
  claim_C9 [("a", mkRat 1 4)] ("b", mkRat 1 2) [("c", mkRat 1 4)]
    ("a", mkRat 1 4) [("b", mkRat 1 2), ("c", mkRat 1 4)]
    rfl (by decide) (by decide)

/-! ## Helper lemmas about the chat dispatcher -/

theorem sendMessagePre_eq (st : ChatState) (ts : Nat) :
    sendMessagePre st ts =
      ({ messages := st.messages ++
            [{ role := Role.user, content := st.input
               id := "user-" ++ toString ts }]
         input := ""
         isLoading := true
         isListening := false },
        { role := Role.user, content := st.input
          id := "user-" ++ toString ts }) := by
  unfold sendMessagePre
  cases st with
  | mk messages input isLoading isListening =>
    cases isListening <;> rfl

theorem sendMessageFinish_messages (st2 : ChatState) (ts : Nat)
    (outcome : FetchOutcome) :
    ∃ c i, (sendMessageFinish st2 ts outcome).messages =
      st2.messages ++ [{ role := Role.assistant, content := c, id := i }] := by
  unfold sendMessageFinish
  cases outcome with
  | ok body =>
    cases h : jsTruthyResponse body with
    | none =>
      exact ⟨fallbackContent, "error-" ++ toString ts, by simp [h, fallbackMessage]⟩
    | some s => exact ⟨s, "assistant-" ++ toString ts, by simp [h]⟩
  | httpError status =>
    exact ⟨fallbackContent, "error-" ++ toString ts, rfl⟩
  | netFail =>
    exact ⟨fallbackContent, "error-" ++ toString ts, rfl⟩

theorem sendMessageFinish_isLoading (st2 : ChatState) (ts : Nat)
    (outcome : FetchOutcome) :
    (sendMessageFinish st2 ts outcome).isLoading = false := rfl

/-! ## Claims about the chat dispatcher -/

/-- Claim C2: on a real submission the outgoing payload is exactly one
fresh system message — the fixed template with the current emotion label
interpolated, "neutral" when none has been promoted — followed by the prior
transcript with system-role entries excluded, in order and stripped to
role/content, followed by the newly submitted user message. -/
theorem claim_C2 (currentEmotion : Option String) (st : ChatState) (ts : Nat)
    (outcome : FetchOutcome) (hne : jsTrim st.input ≠ "") :
    (sendMessage currentEmotion st ts outcome).2 =
      some (({ role := Role.system, content := systemContent currentEmotion } : Entry) ::
        ((st.messages.filter fun m => m.role ≠ Role.system).map
            fun m => ({ role := m.role, content := m.content } : Entry))
        ++ [({ role := Role.user, content := st.input } : Entry)]) ∧
    systemContent none =
      "You are an emotion powered chatbot. Your responses are influenced by the user emotions. Currently the user is neutral!" ∧
    ∀ e : String, e ≠ "" →
      systemContent (some e) =
        "You are an emotion powered chatbot. Your responses are influenced by the user emotions. Currently the user is "
          ++ e ++ "!" := by
  refine ⟨?_, by decide, ?_⟩
  · unfold sendMessage
    rw [if_neg hne]
    rfl
  · intro e he
    simp [systemContent, emotionOrNeutral, he]

/-- Witness for C2 at a concrete submission with one prior exchange. -/
theorem claim_C2_witness :
    (sendMessage (some "happy")
        { messages := [{ role := Role.user, content := "old", id := "user-1" },
                       { role := Role.assistant, content := "hi there", id := "assistant-1" }]
          input := "hi", isLoading := false, isListening := false }
        7 FetchOutcome.netFail).2 =
      some [{ role := Role.system, content := systemContent (some "happy") },
            { role := Role.user, content := "old" },
            { role := Role.assistant, content := "hi there" },
            { role := Role.user, content := "hi" }] :=
  ((claim_C2 (some "happy")
      { messages := [{ role := Role.user, content := "old", id := "user-1" },
                     { role := Role.assistant, content := "hi there", id := "assistant-1" }]
        input := "hi", isLoading := false, isListening := false }
      7 FetchOutcome.netFail (by decide)).1).trans (by decide)

/-- Counterexample to C3 as stated: a 2xx response whose body does contain
a `result.response` text field — the empty string — does not get appended;
the fixed fallback is appended instead. -/
theorem claim_C3_counterexample :
    (sendMessage none
        { messages := [], input := "hi", isLoading := false, isListening := false }
        5 (FetchOutcome.ok { result := some { response := some "" } })).1.messages =
      [{ role := Role.user, content := "hi", id := "user-5" },
       { role := Role.assistant, content := fallbackContent, id := "error-5" }] ∧
    ¬ (sendMessage none
        { messages := [], input := "hi", isLoading := false, isListening := false }
        5 (FetchOutcome.ok { result := some { response := some "" } })).1.messages =
      [{ role := Role.user, content := "hi", id := "user-5" },
       { role := Role.assistant, content := "", id := "assistant-5" }] := by
  decide

/-- Claim C3 (amended): on a 2xx response whose `result.response` field is a
non-empty string, exactly that text is appended as the one new assistant
message; on a response failing the truthiness check (absent `result` or
`response`, or an empty string), a non-2xx status, or a thrown error, the
one appended assistant message is the fixed fallback — so the underlying
error text never reaches the transcript. -/
theorem claim_C3 (currentEmotion : Option String) (st : ChatState) (ts : Nat)
    (hne : jsTrim st.input ≠ "") :
    (∀ (body : ApiBody) (s : String), body.result = some { response := some s } →
      s ≠ "" →
      (sendMessage currentEmotion st ts (FetchOutcome.ok body)).1.messages =
        st.messages ++ [(sendMessagePre st ts).2,
          { role := Role.assistant, content := s, id := "assistant-" ++ toString ts }]) ∧
    (∀ body : ApiBody, jsTruthyResponse body = none →
      (sendMessage currentEmotion st ts (FetchOutcome.ok body)).1.messages =
        st.messages ++ [(sendMessagePre st ts).2, fallbackMessage ts]) ∧
    (∀ status : Nat,
      (sendMessage currentEmotion st ts (FetchOutcome.httpError status)).1.messages =
        st.messages ++ [(sendMessagePre st ts).2, fallbackMessage ts]) ∧
    ((sendMessage currentEmotion st ts FetchOutcome.netFail).1.messages =
        st.messages ++ [(sendMessagePre st ts).2, fallbackMessage ts]) := by
  refine ⟨?_, ?_, ?_, ?_⟩
  · intro body s hbody hs
    have htr : jsTruthyResponse body = some s := by
      unfold jsTruthyResponse
      rw [hbody]
      simp [hs]
    unfold sendMessage
    rw [if_neg hne]
    simp [sendMessageFinish, htr, sendMessagePre_eq]
  · intro body htr
    unfold sendMessage
    rw [if_neg hne]
    simp [sendMessageFinish, htr, sendMessagePre_eq]
  · intro status
    unfold sendMessage
    rw [if_neg hne]
    simp [sendMessageFinish, sendMessagePre_eq]
  · unfold sendMessage
    rw [if_neg hne]
    simp [sendMessageFinish, sendMessagePre_eq]

/-- Witness for the amended C3 on its success branch. -/
theorem claim_C3_witness :
    (sendMessage none
        { messages := [], input := "yo", isLoading := false, isListening := false }
        9 (FetchOutcome.ok { result := some { response := some "Hello" } })).1.messages =
      [{ role := Role.user, content := "yo", id := "user-9" },
       { role := Role.assistant, content := "Hello", id := "assistant-9" }] :=
  (((claim_C3 none
      { messages := [], input := "yo", isLoading := false, isListening := false }
      9 (by decide)).1 { result := some { response := some "Hello" } } "Hello"
      rfl (by decide))).trans (by decide)

/-- Claim C5: the dispatcher raises the busy flag before the request is
issued and has it cleared when it terminates, on every outcome. -/
theorem claim_C5 (currentEmotion : Option String) (st : ChatState) (ts : Nat)
    (outcome : FetchOutcome) (hne : jsTrim st.input ≠ "") :
    (sendMessagePre st ts).1.isLoading = true ∧
    (sendMessage currentEmotion st ts outcome).1.isLoading = false := by
  constructor
  · rw [sendMessagePre_eq]
  · unfold sendMessage
    rw [if_neg hne]
    exact sendMessageFinish_isLoading _ _ _

/-- Witness for C5 on a thrown network error. -/
theorem claim_C5_witness :
    (sendMessagePre
        { messages := [], input := "hi", isLoading := false, isListening := false }
        3).1.isLoading = true ∧
    (sendMessage none
        { messages := [], input := "hi", isLoading := false, isListening := false }
        3 FetchOutcome.netFail).1.isLoading = false :=
  claim_C5 none
    { messages := [], input := "hi", isLoading := false, isListening := false }
    3 FetchOutcome.netFail (by decide)

/-- Claim C7: submitting empty or whitespace-only text is a complete no-op:
the state is returned unchanged and no request payload is produced. -/
theorem claim_C7 (currentEmotion : Option String) (st : ChatState) (ts : Nat)
    (outcome : FetchOutcome) (h : jsTrim st.input = "") :
    sendMessage currentEmotion st ts outcome = (st, none) := by
  unfold sendMessage
  rw [if_pos h]

/-- Witness for C7 on a whitespace-only input. -/
theorem claim_C7_witness :
    sendMessage none
        { messages := [], input := "   ", isLoading := false, isListening := false }
        2 FetchOutcome.netFail =
      ({ messages := [], input := "   ", isLoading := false, isListening := false },
        none) :=
  claim_C7 none
    { messages := [], input := "   ", isLoading := false, isListening := false }
    2 FetchOutcome.netFail (by decide)

/-- Claim C10: a 2xx response carrying `result.response = ""` is treated as
a failure — the truthiness check rejects the empty string, so the fallback
assistant message (whose content is not the empty string) is appended. -/
theorem claim_C10 (currentEmotion : Option String) (st : ChatState) (ts : Nat)
    (hne : jsTrim st.input ≠ "") :
    (sendMessage currentEmotion st ts
        (FetchOutcome.ok { result := some { response := some "" } })).1.messages =
      st.messages ++ [(sendMessagePre st ts).2, fallbackMessage ts] ∧
    (fallbackMessage ts).content ≠ "" := by
  constructor
  · unfold sendMessage
    rw [if_neg hne]
    simp [sendMessageFinish, jsTruthyResponse, sendMessagePre_eq]
  · simp [fallbackMessage, fallbackContent]

/-- Witness for C10 on a concrete submission. -/
theorem claim_C10_witness :
    (sendMessage none
        { messages := [], input := "hey", isLoading := false, isListening := false }
        4 (FetchOutcome.ok { result := some { response := some "" } })).1.messages =
      [] ++ [(sendMessagePre
          { messages := [], input := "hey", isLoading := false, isListening := false }
          4).2, fallbackMessage 4] ∧
    (fallbackMessage 4).content ≠ "" :=
  claim_C10 none
    { messages := [], input := "hey", isLoading := false, isListening := false }
    4 (by decide)

theorem sendMessage_role_cases (currentEmotion : Option String)
    (st : ChatState) (ts : Nat) (outcome : FetchOutcome) :
    ∀ m ∈ (sendMessage currentEmotion st ts outcome).1.messages,
      m ∈ st.messages ∨ m.role = Role.user ∨ m.role = Role.assistant := by
  intro m hm
  unfold sendMessage at hm
  by_cases hg : jsTrim st.input = ""
  · rw [if_pos hg] at hm
    exact Or.inl hm
  · rw [if_neg hg] at hm
    obtain ⟨c, i, hfin⟩ :=
      sendMessageFinish_messages (sendMessagePre st ts).1 ts outcome
    rw [hfin, sendMessagePre_eq] at hm
    simp only [List.append_assoc, List.mem_append, List.mem_cons,
      List.mem_singleton] at hm
    rcases hm with hm | hm | hm
    · exact Or.inl hm
    · rcases hm with hm | hm
      · rw [hm]
        exact Or.inr (Or.inl rfl)
      · cases hm
    · rcases hm with hm | hm
      · rw [hm]
        exact Or.inr (Or.inr rfl)
      · cases hm

theorem chatStep_no_system (st : ChatState) (op : ChatOp)
    (h : ∀ m ∈ st.messages, m.role ≠ Role.system) :
    ∀ m ∈ (chatStep st op).messages, m.role ≠ Role.system := by
  cases op with
  | send currentEmotion ts outcome =>
    intro m hm
    rcases sendMessage_role_cases currentEmotion st ts outcome m hm
      with h1 | h1 | h1
    · exact h m h1
    · rw [h1]
      intro hc
      cases hc
    · rw [h1]
      intro hc
      cases hc
  | clear =>
    intro m hm
    simp [chatStep, clearChat] at hm
  | typeInput s =>
    intro m hm
    exact h m hm
  | speechResult t =>
    intro m hm
    exact h m hm

theorem foldl_chatStep_no_system (ops : List ChatOp) (st : ChatState)
    (h : ∀ m ∈ st.messages, m.role ≠ Role.system) :
    ∀ m ∈ (ops.foldl chatStep st).messages, m.role ≠ Role.system := by
  induction ops generalizing st with
  | nil => exact h
  | cons op rest ih =>
    rw [List.foldl_cons]
    exact ih (chatStep st op) (chatStep_no_system st op h)

/-- Claim C6: starting from the initial (empty) transcript, no sequence of
chat operations — dispatches with any fetch outcome, clears, typing,
dictation results — ever leaves a system-role message in the stored message
list: the per-request system message is never appended to storage, so only
user and assistant roles persist. -/
theorem claim_C6 (ops : List ChatOp) :
    ∀ m ∈ (ops.foldl chatStep initialChatState).messages,
      m.role ≠ Role.system :=
  foldl_chatStep_no_system ops initialChatState (by intro m hm; cases hm)

/-- Witness for C6: a successful dispatch leaves the user message in the
transcript, and its role is not system. -/
theorem claim_C6_witness :
    ({ role := Role.user, content := "hi", id := "user-1" } : Message).role
      ≠ Role.system :=
  claim_C6
    [ChatOp.typeInput "hi",
     ChatOp.send none 1 (FetchOutcome.ok { result := some { response := some "Hello" } })]
    { role := Role.user, content := "hi", id := "user-1" } (by decide)

/-- Claim C8: clearing the chat empties the transcript and changes nothing
else — in particular the application's current emotion survives. -/
theorem claim_C8 (st : AppState) :
    (appClearChat st).chat.messages = [] ∧
    (appClearChat st).currentEmotion = st.currentEmotion ∧
    (appClearChat st).chat.input = st.chat.input ∧
    (appClearChat st).chat.isLoading = st.chat.isLoading ∧
    (appClearChat st).chat.isListening = st.chat.isListening := by
  refine ⟨rfl, rfl, rfl, rfl, rfl⟩

/-- Claim C4, evaluated at its failing input: with the controller listening
and no prior errors, a `network` recognizer error does enter the
reconnecting sub-state without transitioning to idle and does schedule the
single retry timer — but when that timer fires, the retry callback reads
the `isListening` value captured by the mount-time closure (`false`), so it
issues NO stop/start cycle and clears nothing; the claimed restart never
happens. -/
theorem claim_C4 :
    (recognitionOnError "network"
        { isListening := true, networkError := false
          permissionError := none, retryScheduled := false }).isListening = true ∧
    (recognitionOnError "network"
        { isListening := true, networkError := false
          permissionError := none, retryScheduled := false }).networkError = true ∧
    (recognitionOnError "network"
        { isListening := true, networkError := false
          permissionError := none, retryScheduled := false }).retryScheduled = true ∧
    (retryCallback onErrorCapturedIsListening
        (recognitionOnError "network"
          { isListening := true, networkError := false
            permissionError := none, retryScheduled := false })).2 = [] ∧
    (retryCallback true
        (recognitionOnError "network"
          { isListening := true, networkError := false
            permissionError := none, retryScheduled := false })).2 =
      [RecCmd.stop, RecCmd.start] := by
  decide

